import Mathlib

set_option maxRecDepth 8000
set_option linter.unusedVariables false
set_option exponentiation.threshold 1200

/-!
Verification of the plane-detection HTTP boundary service (server.py).

The service is a thin orchestration layer: it validates a raw binary
point-cloud payload against declared grid dimensions, translates optional
tuning parameters into a command-line argument vector, spawns an external
detection engine as a child process, and decodes that engine's JSON output
into a typed response.  The development below is a shallow embedding of the
handler `detect_planes` together with the parts of its runtime it observably
depends on (the JSON decoder `json.loads`, the response-model validation of
the returned value, and the child-process interface), followed by theorems
about the embedded definitions.
-/

namespace PlaneServer

/-- JSON values as produced by `json.loads`.  Numeric literals are kept as
their source text: the service never computes with the numbers, it only
passes them through, so the literal is a faithful carrier. -/
inductive Json where
  | null : Json
  | bool : Bool → Json
  | num : String → Json
  | str : String → Json
  | arr : List Json → Json
  | obj : List (String × Json) → Json

/-- JSON whitespace. -/
def isWs (c : Char) : Bool :=
  c = ' ' || c = '\t' || c = '\n' || c = '\r'

/-- Drop leading JSON whitespace. -/
def skipWs : List Char → List Char
  | [] => []
  | c :: cs => if isWs c then skipWs cs else c :: cs

/-- The value of a hexadecimal digit. -/
def hexDigit (c : Char) : Option Nat :=
  if '0' ≤ c ∧ c ≤ '9' then some (c.toNat - '0'.toNat)
  else if 'a' ≤ c ∧ c ≤ 'f' then some (c.toNat - 'a'.toNat + 10)
  else if 'A' ≤ c ∧ c ≤ 'F' then some (c.toNat - 'A'.toNat + 10)
  else none

/-- Strip the keyword `kw` from the front of `cs`, if present. -/
def stripKeyword : List Char → List Char → Option (List Char)
  | [], cs => some cs
  | _ :: _, [] => none
  | k :: kw, c :: cs => if c = k then stripKeyword kw cs else none

/-- Parse the remainder of a JSON string literal, after its opening quote:
the decoded text and the rest of the input.  Escapes follow the JSON
grammar; an unescaped control character is rejected as Python's strict-mode
decoder does. -/
def parseStringBody : List Char → String → Except String (String × List Char)
  | [], _ => .error "Unterminated string"
  | c :: cs, acc =>
    if c = '"' then .ok (acc, cs)
    else if c = '\\' then
      match cs with
      | [] => .error "Unterminated string"
      | e :: cs1 =>
        if e = '"' then parseStringBody cs1 (acc.push '"')
        else if e = '\\' then parseStringBody cs1 (acc.push '\\')
        else if e = '/' then parseStringBody cs1 (acc.push '/')
        else if e = 'b' then parseStringBody cs1 (acc.push '\x08')
        else if e = 'f' then parseStringBody cs1 (acc.push '\x0C')
        else if e = 'n' then parseStringBody cs1 (acc.push '\n')
        else if e = 'r' then parseStringBody cs1 (acc.push '\r')
        else if e = 't' then parseStringBody cs1 (acc.push '\t')
        else if e = 'u' then
          match cs1 with
          | a :: b :: c2 :: d :: cs2 =>
            match hexDigit a, hexDigit b, hexDigit c2, hexDigit d with
            | some ha, some hb, some hc, some hd =>
              parseStringBody cs2 (acc.push (Char.ofNat (((ha * 16 + hb) * 16 + hc) * 16 + hd)))
            | _, _, _, _ => .error "Invalid \\uXXXX escape"
          | _ => .error "Invalid \\uXXXX escape"
        else .error "Invalid \\escape"
    else if c.toNat < 32 then .error "Invalid control character"
    else parseStringBody cs (acc.push c)

/-- Take the maximal run of decimal digits from the front of the input. -/
def takeDigits : List Char → List Char × List Char
  | [] => ([], [])
  | c :: cs =>
    if c.isDigit then
      let (d, r) := takeDigits cs
      (c :: d, r)
    else ([], c :: cs)

/-- Parse a JSON number literal from the front of the input, following the
grammar Python's decoder matches: an optional minus, an integer part that is
`0` or a nonzero digit followed by digits, an optional fraction, an optional
exponent.  The matched literal is returned as text together with the rest;
when nothing matches, the decoder's "Expecting value" error results. -/
def parseNumber (cs : List Char) : Except String (String × List Char) :=
  let (neg, cs1) :=
    match cs with
    | '-' :: r => (true, r)
    | _ => (false, cs)
  match cs1 with
  | [] => .error "Expecting value"
  | c :: rest =>
    if ¬ c.isDigit then .error "Expecting value"
    else
      let (intPart, cs2) :=
        if c = '0' then ([c], rest)
        else
          let (d, r) := takeDigits rest
          (c :: d, r)
      let (fracPart, cs3) :=
        match cs2 with
        | '.' :: r =>
          match takeDigits r with
          | ([], _) => (([] : List Char), cs2)
          | (d, r2) => ('.' :: d, r2)
        | _ => ([], cs2)
      let (expPart, cs4) :=
        match cs3 with
        | e :: r =>
          if e = 'e' ∨ e = 'E' then
            let (sgn, r1) :=
              match r with
              | '+' :: r2 => (['+'], r2)
              | '-' :: r2 => (['-'], r2)
              | _ => (([] : List Char), r)
            match takeDigits r1 with
            | ([], _) => (([] : List Char), cs3)
            | (d, r2) => (e :: (sgn ++ d), r2)
          else ([], cs3)
        | [] => ([], cs3)
      let lit := (if neg then ['-'] else []) ++ intPart ++ fracPart ++ expPart
      .ok (lit.asString, cs4)

/-- Parse one of the non-composite JSON values Python's decoder accepts at
this point: the three keywords, the non-finite number names, or a number. -/
def parseScalar (cs : List Char) : Except String (Json × List Char) :=
  match stripKeyword "null".toList cs with
  | some r => .ok (.null, r)
  | none =>
  match stripKeyword "true".toList cs with
  | some r => .ok (.bool true, r)
  | none =>
  match stripKeyword "false".toList cs with
  | some r => .ok (.bool false, r)
  | none =>
  match stripKeyword "NaN".toList cs with
  | some r => .ok (.num "NaN", r)
  | none =>
  match stripKeyword "Infinity".toList cs with
  | some r => .ok (.num "Infinity", r)
  | none =>
  match stripKeyword "-Infinity".toList cs with
  | some r => .ok (.num "-Infinity", r)
  | none =>
  match parseNumber cs with
  | .ok (lit, r) => .ok (.num lit, r)
  | .error e => .error e

/-- Insert a key into an object under construction with Python dict
semantics: an existing key keeps its position and takes the new value. -/
def dictInsert : List (String × Json) → String → Json → List (String × Json)
  | [], k, v => [(k, v)]
  | (k1, v1) :: rest, k, v =>
    if k1 = k then (k1, v) :: rest else (k1, v1) :: dictInsert rest k v

mutual

/-- Parse one JSON value from the front of the input.  The fuel argument
only bounds recursion depth; every recursive call consumes at least one
input character, so `length + 1` fuel never runs out. -/
def parseValue : Nat → List Char → Except String (Json × List Char)
  | 0, _ => .error "Nesting depth exceeded"
  | fuel + 1, cs0 =>
    match skipWs cs0 with
    | [] => .error "Expecting value"
    | c :: rest =>
      if c = '"' then
        match parseStringBody rest "" with
        | .ok (s, r) => .ok (.str s, r)
        | .error e => .error e
      else if c = '[' then
        match skipWs rest with
        | ']' :: r => .ok (.arr [], r)
        | r => parseItems fuel r []
      else if c = '{' then
        match skipWs rest with
        | '}' :: r => .ok (.obj [], r)
        | r => parseMembers fuel r []
      else parseScalar (c :: rest)

/-- Parse the elements of a non-empty JSON array, after its opening bracket
(and, on recursive calls, after a comma). -/
def parseItems : Nat → List Char → List Json → Except String (Json × List Char)
  | 0, _, _ => .error "Nesting depth exceeded"
  | fuel + 1, cs, acc =>
    match parseValue fuel cs with
    | .error e => .error e
    | .ok (v, r) =>
      match skipWs r with
      | ']' :: r1 => .ok (.arr (acc ++ [v]), r1)
      | ',' :: r1 => parseItems fuel r1 (acc ++ [v])
      | _ => .error "Expecting ',' delimiter"

/-- Parse the members of a non-empty JSON object, after its opening brace
(and, on recursive calls, after a comma). -/
def parseMembers : Nat → List Char → List (String × Json) → Except String (Json × List Char)
  | 0, _, _ => .error "Nesting depth exceeded"
  | fuel + 1, cs, acc =>
    match skipWs cs with
    | '"' :: r =>
      match parseStringBody r "" with
      | .error e => .error e
      | .ok (k, r1) =>
        match skipWs r1 with
        | ':' :: r2 =>
          match parseValue fuel r2 with
          | .error e => .error e
          | .ok (v, r3) =>
            match skipWs r3 with
            | '}' :: r4 => .ok (.obj (dictInsert acc k v), r4)
            | ',' :: r4 => parseMembers fuel r4 (dictInsert acc k v)
            | _ => .error "Expecting ',' delimiter"
        | _ => .error "Expecting ':' delimiter"
    | _ => .error "Expecting property name enclosed in double quotes"

end

/-- `json.loads`: parse the whole text as a single JSON document; trailing
non-whitespace is the decoder's "Extra data" error. -/
def json_loads (s : String) : Except String Json :=
  match parseValue (s.length + 1) s.toList with
  | .error e => .error e
  | .ok (v, rest) =>
    match skipWs rest with
    | [] => .ok v
    | _ => .error "Extra data"

/-! ## The data model of the endpoint -/

/-- Result of one run of the engine child process: its exit status and the
decoded text of its standard output and standard error streams.  (The
handler decodes both byte streams to text; byte streams that are not valid
text are not modelled, no claim depends on them.) -/
structure EngineResult where
  returncode : Int
  stdout : String
  stderr : String

/-- The environment a request runs in: the module-level resolved engine
path `EXECUTABLE_PATH`, whether `os.path.exists` finds it, and the behaviour
of the engine as a function of its argument vector and its stdin bytes.
Modelling the engine as a function is the deterministic-engine assumption
the spec makes explicit. -/
structure Env where
  exePath : String
  exeExists : Bool
  engine : List String → List Nat → EngineResult

/-- One request to the detection endpoint as FastAPI hands it to the
handler: the two required integer query parameters, the six optional tuning
parameters, and the raw body bytes.  A tuning field is `some v` exactly when
the parameter occurred in the query string: FastAPI rejects an occurrence it
cannot parse before the handler runs, so `"p" in query_params` (the
`param_provided` map) and `p is not None` coincide, and the handler's
conjunction of the two tests is `Option.isSome`.  Float-valued parameters
are carried as their `str()` decimal rendering, which is all the handler
ever uses of them; int-valued ones are carried as integers and rendered
with `toString`, which agrees with Python's `str` on integers. -/
structure DetectRequest where
  width : Int
  height : Int
  min_normal_diff : Option String
  max_dist : Option String
  outlier_ratio : Option String
  min_num_points : Option Int
  nr_neighbors : Option Int
  max_planes : Option Int
  body : List Nat

/-- The `Plane` response model (server.py lines 18-24).  Numeric fields
hold JSON numeric literals: the boundary layer never computes with the
numbers, so the literal text is the faithful carrier. -/
structure Plane where
  normal : List String
  center : List String
  basisU : List String
  basisV : List String
  distanceFromOrigin : String
  inlierCount : String

/-- A numeric literal of integer form — no fraction and no exponent — which
`json.loads` turns into a Python `int` rather than a `float`. -/
def isIntForm (l : String) : Bool :=
  match l.toList with
  | '-' :: cs => cs ≠ [] && cs.all Char.isDigit
  | cs => cs ≠ [] && cs.all Char.isDigit

/-- The natural number spelled by a run of decimal digits. -/
def digitsToNat (ds : List Char) : Nat :=
  ds.foldl (fun acc c => acc * 10 + (c.toNat - '0'.toNat)) 0

/-- The fraction part of a decimal literal: its digits and the rest. -/
def parseFracPart : List Char → Option (List Char × List Char)
  | '.' :: r =>
    (match takeDigits r with
     | ([], _) => none
     | (ds, r2) => some (ds, r2))
  | cs => some ([], cs)

/-- The exponent part of a decimal literal: its signed value and the rest. -/
def parseExpPart : List Char → Option (Int × List Char)
  | 'e' :: r | 'E' :: r =>
    (match r with
     | '+' :: r2 =>
       (match takeDigits r2 with
        | ([], _) => none
        | (ds, r3) => some ((digitsToNat ds : Int), r3))
     | '-' :: r2 =>
       (match takeDigits r2 with
        | ([], _) => none
        | (ds, r3) => some (-(digitsToNat ds : Int), r3))
     | _ =>
       (match takeDigits r with
        | ([], _) => none
        | (ds, r3) => some ((digitsToNat ds : Int), r3)))
  | cs => some (0, cs)

/-- Decompose an unsigned decimal literal into mantissa and exponent: the
literal's exact value is `m * 10 ^ e`.  `none` for text that is not a
decimal literal (the keywords NaN and Infinity among it). -/
def parseDecMag (cs : List Char) : Option (Nat × Int) :=
  match takeDigits cs with
  | ([], _) => none
  | (ip, cs1) =>
    match parseFracPart cs1 with
    | none => none
    | some (fp, cs2) =>
      match parseExpPart cs2 with
      | none => none
      | some (e, cs3) =>
        match cs3 with
        | [] => some (digitsToNat (ip ++ fp), e - (fp.length : Int))
        | _ => none

/-- The magnitude of a numeric literal, sign dropped (Python float overflow
is symmetric in sign). -/
def litMag (l : String) : Option (Nat × Int) :=
  match l.toList with
  | '-' :: cs => parseDecMag cs
  | cs => parseDecMag cs

/-- The overflow boundary of Python's binary64 floats under round-to-nearest-
even: a decimal magnitude converts to a finite float exactly when it is
below `2^1024 - 2^970` (the midpoint above the largest finite double, which
itself rounds up to infinity). -/
def maxFiniteBound : Nat := 2 ^ 1024 - 2 ^ 970

/-- Whether Python's float conversion of the literal yields a finite value:
false for NaN and the infinities, and for decimal literals that overflow.
The comparison `m * 10^e < maxFiniteBound` is exact integer arithmetic. -/
def isFiniteLit (l : String) : Bool :=
  match litMag l with
  | none => false
  | some (m, e) =>
    if m = 0 then true
    else if 0 ≤ e then m * 10 ^ e.toNat < maxFiniteBound
    else m < maxFiniteBound * 10 ^ (-e).toNat

/-- Whether the literal's exact value is an integer (`3.0`, `1e2`, `15`). -/
def isIntegralLit (l : String) : Bool :=
  match litMag l with
  | none => false
  | some (m, e) => 0 ≤ e || m % 10 ^ (-e).toNat = 0

/-- A JSON number pydantic accepts for a `float` field, as its literal.
An integer-form literal is converted with `float(int)`, which raises
`OverflowError` (a validation failure) when it overflows; a float-form
literal was already converted by `json.loads` itself, so it is accepted
even when non-finite (`NaN`, `Infinity`, an overflowing `1e400`) — such
values then fail at response rendering, not here.  Pydantic's further lax
coercions (numeric strings, booleans) are not modelled; no theorem below
quantifies over inputs exercising them. -/
def asNum : Json → Option String
  | .num l => if isIntForm l then (if isFiniteLit l then some l else none) else some l
  | _ => none

/-- A JSON array of numbers (the `List[float]` fields; pydantic checks the
element type but no length). -/
def asNumList : Json → Option (List String)
  | .arr xs => xs.mapM asNum
  | _ => none

/-- A JSON number pydantic accepts for an `int` field: any integer-form
literal (Python ints are unbounded), or a float-form literal whose value is
finite and integral (`3.0`, `1e2`) — both pydantic v1 and v2 accept those;
`int()` of a non-finite float raises, a validation failure.  (On finite
non-integral floats such as `3.7` the versions disagree — v1 truncates,
v2 rejects; the model follows v2 and no theorem quantifies over that
corner.) -/
def asIntNum : Json → Option String
  | .num l =>
    if isIntForm l then some l
    else if isFiniteLit l && isIntegralLit l then some l
    else none
  | _ => none

/-- Look a key up in a decoded JSON object. -/
def getField : List (String × Json) → String → Option Json
  | [], _ => none
  | (k, v) :: rest, name => if k = name then some v else getField rest name

/-- Validate one decoded JSON value against the `Plane` model: an object
with the six required fields of the right shapes (extra fields are ignored,
as pydantic ignores them). -/
def decodePlane : Json → Option Plane
  | .obj fields => do
    let n ← getField fields "normal" >>= asNumList
    let c ← getField fields "center" >>= asNumList
    let u ← getField fields "basisU" >>= asNumList
    let v ← getField fields "basisV" >>= asNumList
    let d ← getField fields "distanceFromOrigin" >>= asNum
    let i ← getField fields "inlierCount" >>= asIntNum
    pure ⟨n, c, u, v, d, i⟩
  | _ => none

/-- FastAPI's validation of the handler's return value against
`response_model=List[Plane]`: a JSON array whose every element validates as
a `Plane`, in order.  This models pydantic's acceptance of JSON numbers for
the numeric fields (including non-finite floats, which pydantic admits and
which then fail at response rendering); its lax coercions from strings and
booleans are not modelled, and no theorem quantifies over inputs exercising
them. -/
def validatePlanes : Json → Option (List Plane)
  | .arr xs => xs.mapM decodePlane
  | _ => none

/-- Whether the Python value behind a JSON value supports `len()`: lists,
dicts and strings do; numbers, booleans and `None` raise `TypeError`. -/
def hasLen : Json → Bool
  | .str _ => true
  | .arr _ => true
  | .obj _ => true
  | _ => false

/-- The Python type name of the value `json.loads` returns, as it appears
in the `TypeError` message of `len()`. -/
def pyTypeName : Json → String
  | .null => "NoneType"
  | .bool _ => "bool"
  | .num l => if isIntForm l then "int" else "float"
  | .str _ => "str"
  | .arr _ => "list"
  | .obj _ => "dict"

/-- The message of the `TypeError` raised by `len()` at server.py line 159
when the parsed output is a number, boolean or `None`. -/
def noLenDetail (j : Json) : String :=
  "object of type '" ++ pyTypeName j ++ "' has no len()"

/-- An object carrying all six required `Plane` keys.  On values outside
this structural core — a non-object element, or an object missing a
required key — every pydantic version rejects, whatever its coercion
rules. -/
def hasPlaneKeys : Json → Bool
  | .obj fields =>
    (getField fields "normal").isSome && (getField fields "center").isSome &&
      (getField fields "basisU").isSome && (getField fields "basisV").isSome &&
      (getField fields "distanceFromOrigin").isSome &&
      (getField fields "inlierCount").isSome
  | _ => false

/-- A JSON value of the structural shape `response_model=List[Plane]`
requires: an array of objects each carrying the six required keys. -/
def planeShaped : Json → Bool
  | .arr xs => xs.all hasPlaneKeys
  | _ => false

/-- Whether a validated plane renders as JSON: Starlette's `JSONResponse`
serializes with `json.dumps(..., allow_nan=False)`, which raises on NaN,
the infinities and values that overflowed to infinity, so every float field
must be finite.  (`inlierCount` is an int after coercion and always
renders.) -/
def planeRenderable (p : Plane) : Bool :=
  p.normal.all isFiniteLit && p.center.all isFiniteLit && p.basisU.all isFiniteLit &&
    p.basisV.all isFiniteLit && isFiniteLit p.distanceFromOrigin

/-- Whether the whole validated response renders as JSON. -/
def renderablePlanes (ps : List Plane) : Bool :=
  ps.all planeRenderable

/-- What the client receives for one request. -/
inductive Response where
  /-- 200 with the ordered, validated plane list. -/
  | ok : List Plane → Response
  /-- An `HTTPException`: its status code and its detail string. -/
  | error : Int → String → Response
  /-- The handler returned a value that fails `response_model` validation:
  FastAPI's generic 500 Internal Server Error, with no HTTPException
  detail. -/
  | serverError : Response

/-- One spawned child process: the argument vector given to
`subprocess.Popen` and the bytes written to the child's stdin. -/
structure SpawnEvent where
  args : List String
  stdinBytes : List Nat

/-- The observable outcome of one request: the HTTP response and the trace
of child processes spawned while serving it. -/
structure Outcome where
  response : Response
  spawned : List SpawnEvent

/-- `str()` of a fastapi `HTTPException` (Starlette renders it as
"status_code: detail"). -/
def excStr (status : Int) (detail : String) : String :=
  toString status ++ ": " ++ detail

/-- Python's `s[:n]` on text: the first `n` characters. -/
def strTake (n : Nat) (s : String) : String :=
  (s.toList.take n).asString

/-- `p` occurs in `s` as a contiguous substring. -/
def strContains (s p : String) : Prop :=
  ∃ l r, s = l ++ p ++ r

/-- `p` is a prefix of `s` (computably, over the character lists). -/
def strIsPrefixOf (p s : String) : Bool :=
  p.toList.isPrefixOf s.toList

/-! ## The handler -/

/-- The flag-and-value pair a provided tuning parameter contributes to the
argument vector (`command.extend([...])`), and nothing for an absent one. -/
def optFlag (flag : String) : Option String → List String
  | some v => [flag, v]
  | none => []

/-- The argument vector built at server.py lines 103-122: the engine path
and the decimal grid dimensions, then each provided tuning parameter's flag
and value, appended in the source's fixed order. -/
def buildCommand (env : Env) (req : DetectRequest) : List String :=
  let command := [env.exePath, toString req.width, toString req.height]
  let command := command ++ optFlag "--min-normal-diff" req.min_normal_diff
  let command := command ++ optFlag "--max-dist" req.max_dist
  let command := command ++ optFlag "--outlier-ratio" req.outlier_ratio
  let command := command ++ optFlag "--min-num-points" (req.min_num_points.map toString)
  let command := command ++ optFlag "--nr-neighbors" (req.nr_neighbors.map toString)
  let command := command ++ optFlag "--max-planes" (req.max_planes.map toString)
  command

/-- The detail string of the `HTTPException` raised at server.py lines
146-150 when the child exits non-zero: the exit code and the full stderr
text. -/
def engineFailDetail (rc : Int) (stderrText : String) : String :=
  "C++ process failed with code " ++ toString rc ++ ": " ++ stderrText

/-- The detail string of the `HTTPException` raised at server.py lines
161-167 when the child's stdout fails JSON parsing: the parse error and the
first 200 characters of the raw output. -/
def parseFailDetail (e : String) (out : String) : String :=
  "Failed to parse JSON output: " ++ e ++ ". Output was: " ++ strTake 200 out ++ "..."

/-- The re-wrap performed by the `except Exception` handler at lines
168-173, which catches the JSON-decode `HTTPException`. -/
def wrapOutput (d : String) : String :=
  "Error processing C++ output: " ++ excStr 500 d

/-- The re-wrap performed by the blanket `except Exception` handler at
lines 175-179, which catches every exception leaving the try block. -/
def wrapFail (d : String) : String :=
  "Failed to process request: " ++ excStr 500 d

/-- The body of the `try` block at server.py lines 101-179, composed with
FastAPI's response-model validation of the returned value.  Every
`HTTPException` raised inside the block is an ordinary `Exception`, so it is
caught by the enclosing handlers: the JSON-decode failure at line 164 is
caught at line 168 and re-raised with an "Error processing C++ output: "
detail, and every exception reaching line 175 is re-raised with a "Failed to
process request: " detail — both renderings via `str()` of the caught
exception.  Before the value can be returned, line 159 logs
`len(planes)`: when the parsed output is a number, boolean or `None`, that
raises `TypeError`, which the line-168 handler wraps like any other
exception.  The value returned at line 160 leaves the block unwrapped and
is then validated against `response_model=List[Plane]` and serialized by
Starlette's `json.dumps(..., allow_nan=False)`; a validation failure and a
render failure (non-finite float) both surface as the framework's generic
500, modelled as `serverError`. -/
def runEngine (env : Env) (req : DetectRequest) : Outcome :=
  let command := buildCommand env req
  let r := env.engine command req.body
  let stderr_output := r.stderr
  if r.returncode ≠ 0 then
    { response := .error 500 (wrapFail (engineFailDetail r.returncode stderr_output)),
      spawned := [⟨command, req.body⟩] }
  else
    match json_loads r.stdout with
    | .ok js =>
      if hasLen js then
        match validatePlanes js with
        | some ps =>
          if renderablePlanes ps then
            { response := .ok ps, spawned := [⟨command, req.body⟩] }
          else
            { response := .serverError, spawned := [⟨command, req.body⟩] }
        | none => { response := .serverError, spawned := [⟨command, req.body⟩] }
      else
        { response := .error 500 (wrapFail ("Error processing C++ output: " ++ noLenDetail js)),
          spawned := [⟨command, req.body⟩] }
    | .error e =>
      { response := .error 500 (wrapFail (wrapOutput (parseFailDetail e r.stdout))),
        spawned := [⟨command, req.body⟩] }

/-- The detection endpoint `POST /planes` (server.py lines 50-179): the
payload size check at lines 86-92, the executable existence check at lines
94-99, then the `try` block.  The two checks' `HTTPException`s are raised
outside the `try` block, so they reach the client unwrapped. -/
def detect_planes (env : Env) (req : DetectRequest) : Outcome :=
  let data_size : Nat := req.body.length
  let expected_bytes : Int := 4 * 3 * req.width * req.height
  if (data_size : Int) ≠ expected_bytes then
    { response := .error 400 ("Binary data size mismatch: got " ++ toString data_size ++
        " bytes, expected " ++ toString expected_bytes ++ " bytes"),
      spawned := [] }
  else if env.exeExists = false then
    { response := .error 500 ("C++ executable not found at " ++ env.exePath ++
        ". Make sure to build the project first."),
      spawned := [] }
  else
    runEngine env req

/-- The HTTP status code of a response. -/
def statusOf : Response → Int
  | .ok _ => 200
  | .error s _ => s
  | .serverError => 500

/-! ## The argument vector as the spec words it

The spec describes the argument vector compositionally: the engine path and
the decimal grid dimensions, followed by the concatenation, in the fixed
canonical order, of one flag-and-value pair per supplied parameter and
nothing for an absent one.  `specFlags`/`specCommand` state that wording as
a definition, to be compared with `buildCommand`, which is translated from
the handler's sequence of `command.extend` statements. -/

/-- The tuning flags the spec prescribes: exactly one flag-and-value pair
per supplied parameter, in the order min-normal-diff, max-dist,
outlier-ratio, min-num-points, nr-neighbors, max-planes; nothing for an
absent parameter. -/
def specFlags (req : DetectRequest) : List String :=
  (match req.min_normal_diff with | some v => ["--min-normal-diff", v] | none => [])
    ++ (match req.max_dist with | some v => ["--max-dist", v] | none => [])
    ++ (match req.outlier_ratio with | some v => ["--outlier-ratio", v] | none => [])
    ++ (match req.min_num_points with | some v => ["--min-num-points", toString v] | none => [])
    ++ (match req.nr_neighbors with | some v => ["--nr-neighbors", toString v] | none => [])
    ++ (match req.max_planes with | some v => ["--max-planes", toString v] | none => [])

/-- The spec's argument vector: engine path, decimal width and height as
positional arguments, then the tuning flags. -/
def specCommand (env : Env) (req : DetectRequest) : List String :=
  [env.exePath, toString req.width, toString req.height] ++ specFlags req

/-! ## Concrete fixtures used by witnesses and counterexamples -/

/-- A resolved engine path for concrete runs. -/
def enginePath : String := "/srv/build/stdin_planes"

/-- An engine stub that succeeds with an empty plane list. -/
def engineEmpty : List String → List Nat → EngineResult :=
  fun _ _ => ⟨0, "[]", ""⟩

/-- An engine stub that exits with status 2 and the diagnostic text
"singular matrix" (spec scenario C). -/
def engineSingular : List String → List Nat → EngineResult :=
  fun _ _ => ⟨2, "", "singular matrix"⟩

/-- An engine stub that writes `not json` to its primary output stream and
exits 0 (spec scenario D). -/
def engineNotJson : List String → List Nat → EngineResult :=
  fun _ _ => ⟨0, "not json", ""⟩

/-- An engine stub whose output is valid JSON — an array holding one empty
object — but not a well-formed Plane sequence: every required field is
missing. -/
def engineEmptyObj : List String → List Nat → EngineResult :=
  fun _ _ => ⟨0, "[\x7b\x7d]", ""⟩

/-- A fixed one-plane JSON document, for the echo round-trip. -/
def planeText : String :=
  "[\x7b\"normal\": [0, 0, 1], \"center\": [1, 2, 3], \"basisU\": [1, 0, 0], " ++
    "\"basisV\": [0, 1, 0], \"distanceFromOrigin\": -3, \"inlierCount\": 42\x7d]"

/-- The decoded form of `planeText`. -/
def planeFixed : Plane :=
  ⟨["0", "0", "1"], ["1", "2", "3"], ["1", "0", "0"], ["0", "1", "0"], "-3", "42"⟩

/-- The JSON value `json.loads` produces for `planeText`. -/
def planeJson : Json :=
  .obj [("normal", .arr [.num "0", .num "0", .num "1"]),
        ("center", .arr [.num "1", .num "2", .num "3"]),
        ("basisU", .arr [.num "1", .num "0", .num "0"]),
        ("basisV", .arr [.num "0", .num "1", .num "0"]),
        ("distanceFromOrigin", .num "-3"),
        ("inlierCount", .num "42")]

/-- An engine stub that echoes the fixed one-plane document. -/
def engineEcho : List String → List Nat → EngineResult :=
  fun _ _ => ⟨0, planeText, ""⟩

/-- An engine stub whose output is the top-level JSON scalar `42`: valid
JSON with no `len()`. -/
def engineScalar : List String → List Nat → EngineResult :=
  fun _ _ => ⟨0, "42", ""⟩

/-- A one-plane JSON document whose `distanceFromOrigin` is `Infinity`:
`json.loads` and pydantic both accept it, but it cannot be rendered. -/
def planeInfText : String :=
  "[\x7b\"normal\": [0, 0, 1], \"center\": [1, 2, 3], \"basisU\": [1, 0, 0], " ++
    "\"basisV\": [0, 1, 0], \"distanceFromOrigin\": Infinity, \"inlierCount\": 42\x7d]"

/-- The decoded form of `planeInfText`. -/
def planeInf : Plane :=
  ⟨["0", "0", "1"], ["1", "2", "3"], ["1", "0", "0"], ["0", "1", "0"], "Infinity", "42"⟩

/-- The JSON value `json.loads` produces for `planeInfText`. -/
def planeInfJson : Json :=
  .obj [("normal", .arr [.num "0", .num "0", .num "1"]),
        ("center", .arr [.num "1", .num "2", .num "3"]),
        ("basisU", .arr [.num "1", .num "0", .num "0"]),
        ("basisV", .arr [.num "0", .num "1", .num "0"]),
        ("distanceFromOrigin", .num "Infinity"),
        ("inlierCount", .num "42")]

/-- An engine stub that echoes the non-renderable one-plane document. -/
def engineInf : List String → List Nat → EngineResult :=
  fun _ _ => ⟨0, planeInfText, ""⟩

/-- An engine stub that behaves like `engineEmpty` on every argument vector
of length three but differently elsewhere: used to exhibit that distinct
environments agreeing only on the invocation actually made produce the same
outcome. -/
def engineElsewhere : List String → List Nat → EngineResult :=
  fun args _ => if args.length = 3 then ⟨0, "[]", ""⟩ else ⟨7, "", "never invoked"⟩

/-- The environment with a present engine behaving as `e`. -/
def envWith (e : List String → List Nat → EngineResult) : Env :=
  ⟨enginePath, true, e⟩

/-- The environment whose resolved engine path does not exist. -/
def envMissing : Env := ⟨enginePath, false, engineEmpty⟩

/-- Scenario A's request: width 2, height 2, no tuning parameters, 48 zero
body bytes. -/
def reqA : DetectRequest :=
  ⟨2, 2, none, none, none, none, none, none, List.replicate 48 0⟩

/-- A request one byte short: width 1, height 1, empty body. -/
def reqShort : DetectRequest :=
  ⟨1, 1, none, none, none, none, none, none, []⟩

/-- Scenario B's request: width 10, height 10, a 2999-byte body. -/
def reqB : DetectRequest :=
  ⟨10, 10, none, none, none, none, none, none, List.replicate 2999 0⟩

/-- Scenario E's request, sized for width 1, height 1: only outlier_ratio
supplied among the tuning parameters. -/
def reqE : DetectRequest :=
  ⟨1, 1, none, none, some "0.5", none, none, none, List.replicate 12 0⟩

/-- A request with width 0 and a negative height, and an empty body. -/
def reqZero : DetectRequest :=
  ⟨0, -7, none, none, none, none, none, none, []⟩

/-! ## Sanity checks of the embedded JSON decoder -/

example : json_loads "[]" = .ok (.arr []) := rfl

example : json_loads "not json" = .error "Expecting value" := rfl

example : json_loads "[\x7b\x7d]" = .ok (.arr [.obj []]) := rfl

example : json_loads " [1, -2.5e3, \"a\", null, true] " =
    .ok (.arr [.num "1", .num "-2.5e3", .str "a", .null, .bool true]) := rfl

example : json_loads "[1" = .error "Expecting ',' delimiter" := rfl

example : json_loads "[] []" = .error "Extra data" := rfl

example : (json_loads planeText).toOption >>= validatePlanes = some [planeFixed] := rfl

example : asIntNum (Json.num "3.0") = some "3.0" := rfl

example : asIntNum (Json.num "1e2") = some "1e2" := rfl

example : asIntNum (Json.num "0.5") = none := rfl

example : asIntNum (Json.num "Infinity") = none := rfl

example : asNum (Json.num "NaN") = some "NaN" := rfl

example : isFiniteLit "1e308" = true := rfl

example : isFiniteLit "1e400" = false := rfl

example : isFiniteLit "1.7976931348623157e308" = true := rfl

example : isFiniteLit "1.7976931348623159e308" = false := rfl

example : json_loads "42" = .ok (.num "42") := rfl

example : noLenDetail (.num "42") = "object of type 'int' has no len()" := rfl

/-! ## General lemmas -/

theorem toList_append (a b : String) : (a ++ b).toList = a.toList ++ b.toList := by
  simp [String.toList, String.data_append]

theorem strIsPrefixOf_append (p q : String) : strIsPrefixOf p (p ++ q) = true := by
  unfold strIsPrefixOf
  rw [toList_append, List.isPrefixOf_iff_prefix]
  exact List.prefix_append _ _

theorem append_ne_right (p x : String) (hp : p.length ≠ 0) : p ++ x ≠ x := by
  intro h
  have hl := congrArg String.length h
  rw [String.length_append] at hl
  omega

theorem strTake_length_le (n : Nat) (s : String) : (strTake n s).length ≤ n := by
  have h : (strTake n s).length = (s.toList.take n).length := rfl
  rw [h, List.length_take]
  exact min_le_left _ _

theorem mapM_option_spec {α β : Type} (f : α → Option β) :
    ∀ (xs : List α) (ys : List β), xs.mapM f = some ys →
      ys.length = xs.length ∧ ∀ i : Nat, ys[i]? = (xs[i]?).bind f := by
  intro xs
  induction xs with
  | nil =>
    intro ys h
    simp only [List.mapM_nil, pure, Option.some.injEq] at h
    subst h
    simp
  | cons x xs ih =>
    intro ys h
    rw [List.mapM_cons] at h
    cases hfx : f x with
    | none => rw [hfx] at h; simp at h
    | some y =>
      rw [hfx] at h
      cases hxs : xs.mapM f with
      | none => rw [hxs] at h; simp at h
      | some tl =>
        rw [hxs] at h
        simp only [Option.bind_eq_bind, Option.some_bind, pure, Option.some.injEq] at h
        subst h
        obtain ⟨hlen, hidx⟩ := ih tl hxs
        refine ⟨by simp [hlen], ?_⟩
        intro i
        cases i with
        | zero => simp [hfx]
        | succ n => simpa using hidx n

theorem buildCommand_eq_spec (env : Env) (req : DetectRequest) :
    buildCommand env req = specCommand env req := by
  unfold buildCommand specCommand specFlags
  cases req.min_normal_diff <;> cases req.max_dist <;> cases req.outlier_ratio <;>
    cases req.min_num_points <;> cases req.nr_neighbors <;> cases req.max_planes <;>
    simp [optFlag]

/-! ## The three branches of the endpoint -/

theorem detect_planes_mismatch (env : Env) (req : DetectRequest)
    (h : (req.body.length : Int) ≠ 12 * req.width * req.height) :
    detect_planes env req =
      { response := .error 400 ("Binary data size mismatch: got " ++ toString req.body.length ++
          " bytes, expected " ++ toString (12 * req.width * req.height) ++ " bytes"),
        spawned := [] } := by
  have h12 : (4 * 3 * req.width * req.height : Int) = 12 * req.width * req.height := by ring
  simp only [detect_planes]
  rw [if_pos (by rw [h12]; exact h), h12]

theorem detect_planes_notfound (env : Env) (req : DetectRequest)
    (hsize : (req.body.length : Int) = 12 * req.width * req.height)
    (hexe : env.exeExists = false) :
    detect_planes env req =
      { response := .error 500 ("C++ executable not found at " ++ env.exePath ++
          ". Make sure to build the project first."),
        spawned := [] } := by
  have h4 : ((req.body.length : Int)) = 4 * 3 * req.width * req.height := by rw [hsize]; ring
  simp only [detect_planes]
  rw [if_neg (fun hne => hne h4), if_pos hexe]

theorem detect_planes_valid (env : Env) (req : DetectRequest)
    (hsize : (req.body.length : Int) = 12 * req.width * req.height)
    (hexe : env.exeExists = true) :
    detect_planes env req = runEngine env req := by
  have h4 : ((req.body.length : Int)) = 4 * 3 * req.width * req.height := by rw [hsize]; ring
  simp only [detect_planes]
  rw [if_neg (fun hne => hne h4), if_neg (by simp [hexe])]

theorem statusOf_runEngine (env : Env) (req : DetectRequest) :
    statusOf (runEngine env req).response ≠ 400 := by
  simp only [runEngine]
  split
  · simp [statusOf]
  · split
    · split
      · split
        · split
          · simp [statusOf]
          · simp [statusOf]
        · simp [statusOf]
      · simp [statusOf]
    · simp [statusOf]

theorem spawned_runEngine (env : Env) (req : DetectRequest) :
    (runEngine env req).spawned = [⟨buildCommand env req, req.body⟩] := by
  simp only [runEngine]
  split
  · rfl
  · split
    · split
      · split
        · split
          · rfl
          · rfl
        · rfl
      · rfl
    · rfl

/-- A value that decodes as a `Plane` carries all six required keys. -/
theorem decodePlane_keys (j : Json) (p : Plane) (h : decodePlane j = some p) :
    hasPlaneKeys j = true := by
  cases j with
  | obj fields =>
    have k1 : (getField fields "normal").isSome = true := by
      cases hn : getField fields "normal" with
      | none => simp [decodePlane, hn] at h
      | some _ => simp
    have k2 : (getField fields "center").isSome = true := by
      cases hn : getField fields "center" with
      | none => simp [decodePlane, hn] at h
      | some _ => simp
    have k3 : (getField fields "basisU").isSome = true := by
      cases hn : getField fields "basisU" with
      | none => simp [decodePlane, hn] at h
      | some _ => simp
    have k4 : (getField fields "basisV").isSome = true := by
      cases hn : getField fields "basisV" with
      | none => simp [decodePlane, hn] at h
      | some _ => simp
    have k5 : (getField fields "distanceFromOrigin").isSome = true := by
      cases hn : getField fields "distanceFromOrigin" with
      | none => simp [decodePlane, hn] at h
      | some _ => simp
    have k6 : (getField fields "inlierCount").isSome = true := by
      cases hn : getField fields "inlierCount" with
      | none => simp [decodePlane, hn] at h
      | some _ => simp
    simp [hasPlaneKeys, k1, k2, k3, k4, k5, k6]
  | null => simp [decodePlane] at h
  | bool b => simp [decodePlane] at h
  | num l => simp [decodePlane] at h
  | str t => simp [decodePlane] at h
  | arr xs => simp [decodePlane] at h

/-- A JSON value that is not an array of objects with the six required keys
never validates as a plane list. -/
theorem validatePlanes_none_of_not_shaped (js : Json) (h : planeShaped js = false) :
    validatePlanes js = none := by
  cases js with
  | arr xs =>
    cases hv : validatePlanes (Json.arr xs) with
    | none => rfl
    | some ps =>
      exfalso
      have hmap : xs.mapM decodePlane = some ps := by simpa [validatePlanes] using hv
      obtain ⟨hlen, hidx⟩ := mapM_option_spec decodePlane xs ps hmap
      have hall : ¬ ∀ x ∈ xs, hasPlaneKeys x = true := by
        intro hall
        rw [planeShaped, List.all_eq_true.mpr hall] at h
        cases h
      apply hall
      intro x hx
      obtain ⟨i, hi⟩ := List.mem_iff_getElem?.mp hx
      have hyi : ps[i]? = decodePlane x := by
        rw [hidx i, hi]
        rfl
      cases hdx : decodePlane x with
      | none =>
        rw [hdx] at hyi
        have hlei : ps.length ≤ i := List.getElem?_eq_none_iff.mp hyi
        have hlti : i < xs.length := by
          by_contra hge
          rw [List.getElem?_eq_none_iff.mpr (by omega)] at hi
          cases hi
        omega
      | some p => exact decodePlane_keys x p hdx
  | null => rfl
  | bool b => rfl
  | num l => rfl
  | str t => rfl
  | obj fields => rfl

/-! ## The claims -/

/-- C1: for every width > 0 and height > 0, the payload validator of the
detection operation accepts (the response is not a 400) exactly when the
request body length equals 12·width·height; when it differs, the operation
fails with the 400 size-mismatch error whose detail carries both the
observed and the expected byte counts. -/
theorem payload_size_check (env : Env) (req : DetectRequest)
    (hw : 0 < req.width) (hh : 0 < req.height) :
    (statusOf (detect_planes env req).response ≠ 400 ↔
      (req.body.length : Int) = 12 * req.width * req.height) ∧
    ((req.body.length : Int) ≠ 12 * req.width * req.height →
      (detect_planes env req).response =
        .error 400 ("Binary data size mismatch: got " ++ toString req.body.length ++
          " bytes, expected " ++ toString (12 * req.width * req.height) ++ " bytes")) := by
  constructor
  · constructor
    · intro hne
      by_contra hsz
      rw [detect_planes_mismatch env req hsz] at hne
      exact hne rfl
    · intro hsz
      cases hexe : env.exeExists with
      | true =>
        rw [detect_planes_valid env req hsz hexe]
        exact statusOf_runEngine env req
      | false =>
        rw [detect_planes_notfound env req hsz hexe]
        simp [statusOf]
  · intro hsz
    rw [detect_planes_mismatch env req hsz]

/-- Witness for C1: width 1, height 1 and an empty body is rejected with
the 400 carrying observed 0 and expected 12. -/
theorem payload_size_check_witness :
    0 < (1 : Int) ∧
    ((reqShort.body.length : Int) ≠ 12 * reqShort.width * reqShort.height) ∧
    (detect_planes (envWith engineEmpty) reqShort).response =
      Response.error 400 "Binary data size mismatch: got 0 bytes, expected 12 bytes" := by
  refine ⟨by decide, by decide, ?_⟩
  have h := (payload_size_check (envWith engineEmpty) reqShort (by decide) (by decide)).2
    (by decide)
  rw [h]
  rfl

/-- C5: a request whose body length differs from 12·width·height spawns no
child process — validation rejects before any process creation — and the
response is the 400 mismatch. -/
theorem no_spawn_on_mismatch (env : Env) (req : DetectRequest)
    (h : (req.body.length : Int) ≠ 12 * req.width * req.height) :
    (detect_planes env req).spawned = [] ∧
    statusOf (detect_planes env req).response = 400 := by
  rw [detect_planes_mismatch env req h]
  exact ⟨rfl, rfl⟩

/-- Witness for C5 at scenario B: width 10, height 10 and a 2999-byte body
spawn nothing. -/
theorem no_spawn_on_mismatch_witness :
    ((reqB.body.length : Int) ≠ 12 * reqB.width * reqB.height) ∧
    (detect_planes (envWith engineEmpty) reqB).spawned = [] ∧
    statusOf (detect_planes (envWith engineEmpty) reqB).response = 400 := by
  have hlen : (reqB.body.length : Int) ≠ 12 * reqB.width * reqB.height := by
    norm_num [reqB]
  obtain ⟨h1, h2⟩ := no_spawn_on_mismatch (envWith engineEmpty) reqB hlen
  exact ⟨hlen, h1, h2⟩

/-- C6: when the payload validates but the resolved engine executable does
not exist, the operation fails with the 500 engine-not-found error, and no
child process is spawned. -/
theorem engine_not_found (env : Env) (req : DetectRequest)
    (hsize : (req.body.length : Int) = 12 * req.width * req.height)
    (hexe : env.exeExists = false) :
    (detect_planes env req).response =
      .error 500 ("C++ executable not found at " ++ env.exePath ++
        ". Make sure to build the project first.") ∧
    (detect_planes env req).spawned = [] := by
  rw [detect_planes_notfound env req hsize hexe]
  exact ⟨rfl, rfl⟩

/-- Witness for C6: a correctly-sized request in the environment whose
engine path is missing. -/
theorem engine_not_found_witness :
    ((reqA.body.length : Int) = 12 * reqA.width * reqA.height) ∧
    envMissing.exeExists = false ∧
    (detect_planes envMissing reqA).response =
      Response.error 500
        "C++ executable not found at /srv/build/stdin_planes. Make sure to build the project first." ∧
    (detect_planes envMissing reqA).spawned = [] := by
  have hsize : ((reqA.body.length : Int) = 12 * reqA.width * reqA.height) := by
    norm_num [reqA]
  obtain ⟨h1, h2⟩ := engine_not_found envMissing reqA hsize rfl
  refine ⟨hsize, rfl, ?_, h2⟩
  rw [h1]
  rfl

/-- C2: for every subset of supplied tuning parameters, the argument vector
passed to the engine consists of the engine path and the decimal renderings
of width and height as positional arguments, followed by exactly one
flag-and-value pair per supplied parameter in the fixed order
min-normal-diff, max-dist, outlier-ratio, min-num-points, nr-neighbors,
max-planes, with no flag for an absent parameter; the validated body bytes
are what is written to the child's stdin. -/
theorem engine_args (env : Env) (req : DetectRequest)
    (hsize : (req.body.length : Int) = 12 * req.width * req.height)
    (hexe : env.exeExists = true) :
    (detect_planes env req).spawned = [⟨specCommand env req, req.body⟩] := by
  rw [detect_planes_valid env req hsize hexe, spawned_runEngine, buildCommand_eq_spec]

/-- Witness for C2 at scenarios A and E: with no tuning parameters the
vector is only the positional arguments; with only outlier_ratio=0.5 it
carries exactly that parameter's pair. -/
theorem engine_args_witness :
    ((reqA.body.length : Int) = 12 * reqA.width * reqA.height) ∧
    (detect_planes (envWith engineEmpty) reqA).spawned =
      [⟨["/srv/build/stdin_planes", "2", "2"], List.replicate 48 0⟩] ∧
    (detect_planes (envWith engineEmpty) reqE).spawned =
      [⟨["/srv/build/stdin_planes", "1", "1", "--outlier-ratio", "0.5"],
        List.replicate 12 0⟩] := by
  have hA : ((reqA.body.length : Int) = 12 * reqA.width * reqA.height) := by
    norm_num [reqA]
  have hE : ((reqE.body.length : Int) = 12 * reqE.width * reqE.height) := by
    norm_num [reqE]
  refine ⟨hA, ?_, ?_⟩
  · rw [engine_args (envWith engineEmpty) reqA hA rfl]
    rfl
  · rw [engine_args (envWith engineEmpty) reqE hE rfl]
    rfl

/-- C3: when the engine child process exits with a non-zero status, the
operation fails with a 500 whose detail — the engine-execution-failed
message, wrapped once by the blanket handler — contains both the decimal
rendering of the exit code and the full stderr text. -/
theorem engine_failure_surfaced (env : Env) (req : DetectRequest)
    (hsize : (req.body.length : Int) = 12 * req.width * req.height)
    (hexe : env.exeExists = true)
    (hrc : (env.engine (buildCommand env req) req.body).returncode ≠ 0) :
    statusOf (detect_planes env req).response = 500 ∧
    (detect_planes env req).response =
      .error 500 ("Failed to process request: " ++
        excStr 500 ("C++ process failed with code " ++
          toString (env.engine (buildCommand env req) req.body).returncode ++ ": " ++
          (env.engine (buildCommand env req) req.body).stderr)) ∧
    strContains
      ("Failed to process request: " ++
        excStr 500 ("C++ process failed with code " ++
          toString (env.engine (buildCommand env req) req.body).returncode ++ ": " ++
          (env.engine (buildCommand env req) req.body).stderr))
      (toString (env.engine (buildCommand env req) req.body).returncode) ∧
    strContains
      ("Failed to process request: " ++
        excStr 500 ("C++ process failed with code " ++
          toString (env.engine (buildCommand env req) req.body).returncode ++ ": " ++
          (env.engine (buildCommand env req) req.body).stderr))
      ((env.engine (buildCommand env req) req.body).stderr) := by
  rw [detect_planes_valid env req hsize hexe]
  simp only [runEngine]
  rw [if_pos hrc]
  refine ⟨rfl, rfl, ?_, ?_⟩
  · refine ⟨"Failed to process request: " ++ toString (500 : Int) ++ ": " ++
      "C++ process failed with code ",
      ": " ++ (env.engine (buildCommand env req) req.body).stderr, ?_⟩
    simp only [excStr, String.append_assoc]
  · refine ⟨"Failed to process request: " ++ toString (500 : Int) ++ ": " ++
      "C++ process failed with code " ++
      toString (env.engine (buildCommand env req) req.body).returncode ++ ": ",
      "", ?_⟩
    simp only [excStr, String.append_assoc, String.append_empty]

/-- Witness for C3 at scenario C: exit status 2 with diagnostic text
"singular matrix" yields the 500 whose detail contains "2" and "singular
matrix". -/
theorem engine_failure_surfaced_witness :
    ((reqA.body.length : Int) = 12 * reqA.width * reqA.height) ∧
    ((envWith engineSingular).engine
        (buildCommand (envWith engineSingular) reqA) reqA.body).returncode ≠ 0 ∧
    (detect_planes (envWith engineSingular) reqA).response =
      Response.error 500
        "Failed to process request: 500: C++ process failed with code 2: singular matrix" := by
  have hA : ((reqA.body.length : Int) = 12 * reqA.width * reqA.height) := by
    norm_num [reqA]
  have hrc : ((envWith engineSingular).engine
      (buildCommand (envWith engineSingular) reqA) reqA.body).returncode ≠ 0 := by decide
  obtain ⟨h1, h2, h3, h4⟩ := engine_failure_surfaced (envWith engineSingular) reqA hA rfl hrc
  refine ⟨hA, hrc, ?_⟩
  rw [h2]
  rfl

/-- C4 counterexample: the engine output `[{}]` parses as JSON but misses
every required Plane field, so it "fails to parse as a structured sequence
of Plane records"; yet the operation's failure is FastAPI's generic
response-validation 500 — it carries no HTTPException detail at all, hence
no parse error and no output prefix, contrary to the claim. -/
theorem decode_claim_counterexample :
    json_loads "[\x7b\x7d]" = Except.ok (Json.arr [Json.obj []]) ∧
    validatePlanes (Json.arr [Json.obj []]) = none ∧
    ((envWith engineEmptyObj).engine
      (buildCommand (envWith engineEmptyObj) reqA) reqA.body).stdout = "[\x7b\x7d]" ∧
    (detect_planes (envWith engineEmptyObj) reqA).response = Response.serverError := by
  exact ⟨rfl, rfl, rfl, rfl⟩

/-- C4 (amended): when the engine exits 0, an output that fails JSON
parsing makes the operation fail with a 500 whose detail — wrapped by the
two blanket handlers — carries the parse error and the first 200 characters
of the raw output, a prefix never longer than 200 characters; an output
that parses as JSON but has no `len()` (a number, boolean or null) fails at
the length-logging step with a wrapped 500 carrying the `TypeError` text;
an output with `len()` that is not an array of objects carrying the six
required fields fails response-model validation, yielding the generic 500
with no HTTPException detail. -/
theorem decode_failure_behaviour (env : Env) (req : DetectRequest)
    (hsize : (req.body.length : Int) = 12 * req.width * req.height)
    (hexe : env.exeExists = true)
    (hrc : (env.engine (buildCommand env req) req.body).returncode = 0) :
    (∀ e, json_loads (env.engine (buildCommand env req) req.body).stdout = .error e →
      (detect_planes env req).response =
        .error 500 (wrapFail (wrapOutput (parseFailDetail e
          (env.engine (buildCommand env req) req.body).stdout)))) ∧
    ((strTake 200 (env.engine (buildCommand env req) req.body).stdout).length ≤ 200) ∧
    (∀ js, json_loads (env.engine (buildCommand env req) req.body).stdout = .ok js →
      hasLen js = false →
      (detect_planes env req).response =
        .error 500 (wrapFail ("Error processing C++ output: " ++ noLenDetail js))) ∧
    (∀ js, json_loads (env.engine (buildCommand env req) req.body).stdout = .ok js →
      hasLen js = true → planeShaped js = false →
      (detect_planes env req).response = .serverError) := by
  rw [detect_planes_valid env req hsize hexe]
  simp only [runEngine]
  rw [if_neg (fun h => h hrc)]
  refine ⟨?_, strTake_length_le 200 _, ?_, ?_⟩
  · intro e he
    rw [he]
  · intro js hjs hnolen
    rw [hjs]
    simp [hnolen]
  · intro js hjs hlen hshape
    rw [hjs]
    simp [hlen, validatePlanes_none_of_not_shaped js hshape]

/-- Witness for C4: scenario D (the engine writes `not json` and exits 0,
giving the wrapped 500 carrying the parse error and the raw text) and the
top-level scalar `42` (no `len()`, giving the wrapped TypeError 500). -/
theorem decode_failure_behaviour_witness :
    ((reqA.body.length : Int) = 12 * reqA.width * reqA.height) ∧
    json_loads "not json" = Except.error "Expecting value" ∧
    (detect_planes (envWith engineNotJson) reqA).response =
      Response.error 500
        ("Failed to process request: 500: Error processing C++ output: 500: " ++
          "Failed to parse JSON output: Expecting value. Output was: not json...") ∧
    (detect_planes (envWith engineScalar) reqA).response =
      Response.error 500
        "Failed to process request: 500: Error processing C++ output: object of type 'int' has no len()" := by
  have hA : ((reqA.body.length : Int) = 12 * reqA.width * reqA.height) := by
    norm_num [reqA]
  have h := (decode_failure_behaviour (envWith engineNotJson) reqA hA rfl rfl).1
    "Expecting value" rfl
  have h2 := (decode_failure_behaviour (envWith engineScalar) reqA hA rfl rfl).2.2.1
    (Json.num "42") rfl rfl
  refine ⟨hA, rfl, ?_, ?_⟩
  · rw [h]
    rfl
  · rw [h2]
    rfl

/-- The blanket handler's detail always starts with the wrapping prefix. -/
theorem wrapFail_prefixed (d : String) :
    strIsPrefixOf "Failed to process request: " (wrapFail d) = true := by
  unfold wrapFail
  exact strIsPrefixOf_append _ _

/-- The blanket handler's detail is never the detail it wrapped. -/
theorem wrapFail_ne (d : String) : wrapFail d ≠ d := by
  have hsh : wrapFail d =
      ("Failed to process request: " ++ (toString (500 : Int) ++ ": ")) ++ d := by
    simp only [wrapFail, excStr, String.append_assoc]
  rw [hsh]
  exact append_ne_right _ _ (by decide)

/-- Nor is the doubly-wrapped JSON-decode detail the original one. -/
theorem wrapFail_wrapOutput_ne (d : String) : wrapFail (wrapOutput d) ≠ d := by
  have hsh : wrapFail (wrapOutput d) =
      ("Failed to process request: " ++ (toString (500 : Int) ++ ": ") ++
        ("Error processing C++ output: " ++ (toString (500 : Int) ++ ": "))) ++ d := by
    simp only [wrapFail, wrapOutput, excStr, String.append_assoc]
  rw [hsh]
  exact append_ne_right _ _ (by decide)

/-- C9 counterexample: the engine-not-found failure is raised after payload
validation but before the try block, so it reaches the client with its
original detail string, not one nested under "Failed to process request: "
— refuting the claim's "thus every post-validation failure reaches the
client with ... a nested, not original, detail string". -/
theorem wrapping_claim_counterexample :
    ((reqA.body.length : Int) = 12 * reqA.width * reqA.height) ∧
    (detect_planes envMissing reqA).response =
      Response.error 500
        "C++ executable not found at /srv/build/stdin_planes. Make sure to build the project first." ∧
    strIsPrefixOf "Failed to process request: "
      "C++ executable not found at /srv/build/stdin_planes. Make sure to build the project first."
      = false := by
  refine ⟨by norm_num [reqA], ?_, rfl⟩
  rfl

/-- C9 (amended): every failure raised inside the engine-invocation try
block — the engine-execution-failed HTTPException and the JSON-decode
HTTPException, the latter first re-wrapped by the inner output handler — is
caught by the blanket handler and re-raised as a 500 whose detail is the
string rendering of the caught exception prefixed with "Failed to process
request: ", hence nested and distinct from the originally constructed
detail; the engine-not-found failure, raised between validation and the try
block, instead reaches the client with its original detail. -/
theorem blanket_wrapping (env : Env) (req : DetectRequest)
    (hsize : (req.body.length : Int) = 12 * req.width * req.height)
    (hexe : env.exeExists = true) :
    ((env.engine (buildCommand env req) req.body).returncode ≠ 0 →
      (detect_planes env req).response =
        .error 500 (wrapFail (engineFailDetail
          (env.engine (buildCommand env req) req.body).returncode
          (env.engine (buildCommand env req) req.body).stderr)) ∧
      wrapFail (engineFailDetail
          (env.engine (buildCommand env req) req.body).returncode
          (env.engine (buildCommand env req) req.body).stderr) ≠
        engineFailDetail
          (env.engine (buildCommand env req) req.body).returncode
          (env.engine (buildCommand env req) req.body).stderr) ∧
    (∀ e, (env.engine (buildCommand env req) req.body).returncode = 0 →
      json_loads (env.engine (buildCommand env req) req.body).stdout = .error e →
      (detect_planes env req).response =
        .error 500 (wrapFail (wrapOutput (parseFailDetail e
          (env.engine (buildCommand env req) req.body).stdout))) ∧
      wrapFail (wrapOutput (parseFailDetail e
          (env.engine (buildCommand env req) req.body).stdout)) ≠
        parseFailDetail e (env.engine (buildCommand env req) req.body).stdout) ∧
    (∀ d, strIsPrefixOf "Failed to process request: " (wrapFail d) = true) := by
  rw [detect_planes_valid env req hsize hexe]
  refine ⟨?_, ?_, wrapFail_prefixed⟩
  · intro hrc
    refine ⟨?_, wrapFail_ne _⟩
    simp only [runEngine]
    rw [if_pos hrc]
  · intro e hrc he
    refine ⟨?_, wrapFail_wrapOutput_ne _⟩
    simp only [runEngine]
    rw [if_neg (fun h => h hrc), he]

/-- Witness for C9: the scenario-C engine failure reaches the client
wrapped, with a detail distinct from the constructed engine-failure
detail. -/
theorem blanket_wrapping_witness :
    ((reqA.body.length : Int) = 12 * reqA.width * reqA.height) ∧
    ((envWith engineSingular).engine
        (buildCommand (envWith engineSingular) reqA) reqA.body).returncode ≠ 0 ∧
    (detect_planes (envWith engineSingular) reqA).response =
      Response.error 500 (wrapFail (engineFailDetail 2 "singular matrix")) ∧
    wrapFail (engineFailDetail 2 "singular matrix") ≠
      engineFailDetail 2 "singular matrix" := by
  have hA : ((reqA.body.length : Int) = 12 * reqA.width * reqA.height) := by
    norm_num [reqA]
  obtain ⟨hcase, -, -⟩ := blanket_wrapping (envWith engineSingular) reqA hA rfl
  obtain ⟨h1, h2⟩ := hcase (by decide)
  refine ⟨hA, by decide, ?_, h2⟩
  rw [h1]
  rfl

/-- C7 counterexample: an engine output that parses and validates as a
one-plane sequence whose `distanceFromOrigin` is `Infinity` — accepted by
`json.loads` and by pydantic — is not returned to the client: rendering
(`json.dumps` with `allow_nan=False`) fails and the operation answers the
generic 500 instead of the sequence. -/
theorem order_claim_counterexample :
    json_loads planeInfText = Except.ok (Json.arr [planeInfJson]) ∧
    validatePlanes (Json.arr [planeInfJson]) = some [planeInf] ∧
    renderablePlanes [planeInf] = false ∧
    (detect_planes (envWith engineInf) reqA).response = Response.serverError ∧
    Response.serverError ≠ Response.ok [planeInf] := by
  refine ⟨rfl, rfl, rfl, rfl, ?_⟩
  intro h
  exact Response.noConfusion h

/-- C7 (amended): when the engine output parses as a JSON array whose
elements all validate as Plane records, and every numeric field is finite
(renderable), the operation returns exactly that sequence: same length,
i-th response element the decoding of the engine's i-th element, no
re-ordering — and an empty sequence yields the empty response; when the
validated sequence carries a non-finite number, rendering fails and the
operation answers the generic 500. -/
theorem success_order_preserved (env : Env) (req : DetectRequest)
    (hsize : (req.body.length : Int) = 12 * req.width * req.height)
    (hexe : env.exeExists = true)
    (hrc : (env.engine (buildCommand env req) req.body).returncode = 0)
    (js : List Json)
    (hparse : json_loads (env.engine (buildCommand env req) req.body).stdout =
      .ok (.arr js))
    (ps : List Plane)
    (hdec : js.mapM decodePlane = some ps) :
    (renderablePlanes ps = true → (detect_planes env req).response = .ok ps) ∧
    (renderablePlanes ps = false → (detect_planes env req).response = .serverError) ∧
    ps.length = js.length ∧
    (∀ i : Nat, ps[i]? = (js[i]?).bind decodePlane) := by
  obtain ⟨hlen, hidx⟩ := mapM_option_spec decodePlane js ps hdec
  have hv : validatePlanes (Json.arr js) = some ps := by
    simpa [validatePlanes] using hdec
  rw [detect_planes_valid env req hsize hexe]
  simp only [runEngine]
  rw [if_neg (fun h => h hrc), hparse]
  refine ⟨?_, ?_, hlen, hidx⟩
  · intro hr
    simp [hasLen, hv, hr]
  · intro hr
    simp [hasLen, hv, hr]

/-- Witness for C7: the echo engine's finite one-plane document decodes to
exactly that plane, and the empty document to the empty response. -/
theorem success_order_preserved_witness :
    ((reqA.body.length : Int) = 12 * reqA.width * reqA.height) ∧
    json_loads planeText = Except.ok (Json.arr [planeJson]) ∧
    [planeJson].mapM decodePlane = some [planeFixed] ∧
    renderablePlanes [planeFixed] = true ∧
    (detect_planes (envWith engineEcho) reqA).response = Response.ok [planeFixed] ∧
    (detect_planes (envWith engineEmpty) reqA).response = Response.ok [] := by
  have hA : ((reqA.body.length : Int) = 12 * reqA.width * reqA.height) := by
    norm_num [reqA]
  refine ⟨hA, rfl, rfl, rfl, ?_, ?_⟩
  · exact (success_order_preserved (envWith engineEcho) reqA hA rfl rfl
      [planeJson] rfl [planeFixed] rfl).1 rfl
  · exact (success_order_preserved (envWith engineEmpty) reqA hA rfl rfl
      [] rfl [] rfl).1 rfl

/-- C8: the boundary layer is deterministic.  Two requests with equal
width, height, body bytes and supplied parameters, run in environments that
agree on the engine path, on its existence, and on the engine's behaviour
at the one invocation actually made, produce identical outcomes — the
boundary introduces no nondeterminism beyond the engine's. -/
theorem boundary_deterministic (e1 e2 : Env) (r1 r2 : DetectRequest)
    (hreq : r1 = r2)
    (hp : e1.exePath = e2.exePath)
    (hx : e1.exeExists = e2.exeExists)
    (he : e1.engine (buildCommand e1 r1) r1.body = e2.engine (buildCommand e2 r2) r2.body) :
    detect_planes e1 r1 = detect_planes e2 r2 := by
  subst hreq
  have hcmd : buildCommand e1 r1 = buildCommand e2 r1 := by
    unfold buildCommand
    rw [hp]
  rw [hcmd] at he
  simp only [detect_planes, runEngine]
  rw [hp, hx, hcmd, he]

/-- Witness for C8: two environments whose engines agree on the invocation
made for scenario A but differ on other argument vectors yield identical
outcomes; the engines really differ elsewhere. -/
theorem boundary_deterministic_witness :
    (envWith engineEmpty).engine (buildCommand (envWith engineEmpty) reqA) reqA.body =
      (envWith engineElsewhere).engine (buildCommand (envWith engineElsewhere) reqA) reqA.body ∧
    detect_planes (envWith engineEmpty) reqA = detect_planes (envWith engineElsewhere) reqA ∧
    (engineEmpty ["other"] []).returncode = 0 ∧
    (engineElsewhere ["other"] []).returncode = 7 := by
  refine ⟨rfl, ?_, rfl, rfl⟩
  exact boundary_deterministic (envWith engineEmpty) (envWith engineElsewhere)
    reqA reqA rfl rfl rfl rfl

/-- C10: the operation never checks that width and height are positive.
With an empty body, the size check passes exactly when 12·width·height is
zero, and the engine child process is then spawned with those dimensions —
zero or even negative — rendered as its positional arguments. -/
theorem no_positivity_check (env : Env) (req : DetectRequest)
    (hbody : req.body = []) (hexe : env.exeExists = true) :
    (statusOf (detect_planes env req).response ≠ 400 ↔
      12 * req.width * req.height = 0) ∧
    (12 * req.width * req.height = 0 →
      (detect_planes env req).spawned = [⟨buildCommand env req, []⟩] ∧
      (buildCommand env req).take 3 =
        [env.exePath, toString req.width, toString req.height]) := by
  have hlen : (req.body.length : Int) = 0 := by rw [hbody]; rfl
  constructor
  · constructor
    · intro hne
      by_contra hz
      have hmm : (req.body.length : Int) ≠ 12 * req.width * req.height := by
        rw [hlen]
        intro h
        exact hz h.symm
      rw [detect_planes_mismatch env req hmm] at hne
      exact hne rfl
    · intro hz
      have hsz : (req.body.length : Int) = 12 * req.width * req.height := by
        rw [hlen, hz]
      rw [detect_planes_valid env req hsz hexe]
      exact statusOf_runEngine env req
  · intro hz
    have hsz : (req.body.length : Int) = 12 * req.width * req.height := by
      rw [hlen, hz]
    constructor
    · rw [detect_planes_valid env req hsz hexe, spawned_runEngine, hbody]
    · rw [buildCommand_eq_spec]
      unfold specCommand
      exact List.take_left' rfl

/-- Witness for C10: width 0, height -7 and an empty body pass the size
check and spawn the engine with "0" and "-7" as positional arguments. -/
theorem no_positivity_check_witness :
    reqZero.body = [] ∧
    12 * reqZero.width * reqZero.height = 0 ∧
    (detect_planes (envWith engineEmpty) reqZero).spawned =
      [⟨["/srv/build/stdin_planes", "0", "-7"], []⟩] ∧
    statusOf (detect_planes (envWith engineEmpty) reqZero).response ≠ 400 := by
  have hz : 12 * reqZero.width * reqZero.height = 0 := by decide
  obtain ⟨hiff, hsp⟩ := no_positivity_check (envWith engineEmpty) reqZero rfl rfl
  obtain ⟨h1, h2⟩ := hsp hz
  refine ⟨rfl, hz, ?_, hiff.mpr hz⟩
  rw [h1]
  rfl

end PlaneServer
